import Mathlib

/-!
Shallow embedding of SpotiBot (src/main.py): configuration loading and
validation, the top-level process handler, the Playback Surface wrapper
(element waits, probes, cookie persistence), and one reconciliation tick
of the main loop.  Machine behaviour that depends on the outside world
(which DOM elements appear, what the play button reports, the on-disk
state of cookies.pkl) is passed in as explicit observation inputs; the
definitions then mirror the control flow of the Python source.
-/

/-- The exception classes of the Python runtime that the program can
raise or handle.  SystemExit and KeyboardInterrupt derive from
BaseException only, so an `except Exception` clause does not catch
them; everything else here is an Exception subclass. -/
inductive PyError
  | systemExit
  | keyboardInterrupt
  | typeError
  | valueError
  | attributeError
  | indexError
  | oSError
  | unpicklingError
deriving DecidableEq

/-- Whether a raised class is caught by `except Exception`. -/
def isPyException : PyError → Bool
  | PyError.systemExit => false
  | PyError.keyboardInterrupt => false
  | _ => true

/-- Python str.lower, written over the character list so that concrete
instances evaluate. -/
def pyLowerStr (s : String) : String :=
  String.mk (s.data.map Char.toLower)

/-- SpotiBot.string_to_bool: `s.lower() in ("yes", "true", "t", "1")`. -/
def string_to_bool (s : String) : Bool :=
  ["yes", "true", "t", "1"].contains (pyLowerStr s)

/-- Accumulate a decimal digit string into a number; any non-digit
character makes the whole parse fail. -/
def digitsVal : List Char → Option Nat → Option Nat
  | [], acc => acc
  | c :: cs, acc =>
    if c.isDigit then digitsVal cs (some ((acc.getD 0) * 10 + (c.toNat - 48)))
    else none

/-- The plain decimal forms accepted by Python int(): an optional sign
followed by at least one digit.  The hour fields only ever receive such
strings, so the further leniencies of int() (surrounding whitespace,
underscore separators) are not modelled. -/
def pyParseInt (s : String) : Option Int :=
  match s.data with
  | '-' :: cs => (digitsVal cs none).map (fun n => -(n : Int))
  | '+' :: cs => (digitsVal cs none).map (fun n => (n : Int))
  | cs => (digitsVal cs none).map (fun n => (n : Int))

/-- Python `int(x)` applied to the result of os.getenv: raises TypeError
when the variable is unset (int(None)) and ValueError when the string is
not an integer literal. -/
def pyInt (x : Option String) : Except PyError Int :=
  match x with
  | none => Except.error PyError.typeError
  | some s =>
    match pyParseInt s with
    | some n => Except.ok n
    | none => Except.error PyError.valueError

/-- string_to_bool applied to the result of os.getenv: `None.lower()`
raises AttributeError when the variable is unset. -/
def pyStrToBool (x : Option String) : Except PyError Bool :=
  match x with
  | none => Except.error PyError.attributeError
  | some s => Except.ok (string_to_bool s)

/-- The process environment: one optional string per variable read in
SpotiBot.__init__. -/
structure Env where
  PLAYLIST_LINK : Option String
  LOGIN_USERNAME : Option String
  LOGIN_PASSWORD : Option String
  START_HOUR : Option String
  END_HOUR : Option String
  SHUFFLE : Option String
  HEADLESS : Option String
  SENDER_EMAIL : Option String
  RECEIVER_EMAIL : Option String
  APP_PASSWORD : Option String
deriving DecidableEq

/-- The configuration held by a successfully constructed SpotiBot
instance.  The email fields keep their Option form because the
notification guard in __main__ re-checks them against None. -/
structure Config where
  PLAYLIST_LINK : String
  LOGIN_USERNAME : String
  LOGIN_PASSWORD : String
  START_HOUR : Int
  END_HOUR : Int
  SHUFFLE : Bool
  HEADLESS : Bool
  SENDER_EMAIL : Option String
  RECEIVER_EMAIL : Option String
  APP_PASSWORD : Option String
deriving DecidableEq

/-- Outcome of SpotiBot.__init__: an exception escaping the constructor,
the validation branch (which logs the missing-configuration message and
calls sys.exit(1)), or a constructed instance. -/
inductive InitResult
  | raised (e : PyError)
  | exited (code : Nat)
  | ok (cfg : Config)
deriving DecidableEq

/-- SpotiBot.__init__ (src/main.py lines 48 to 70).  The conversions
int(...) and string_to_bool(...) run while the fields are being
assigned, before the validation check; a missing START_HOUR, END_HOUR,
SHUFFLE or HEADLESS therefore raises there.  At the validation check the
four converted fields are an int or a bool and can no longer be None, so
the `None in [...]` test only fires for the six plain string fields —
including the three notification fields, which the source lists in the
same required set. -/
def spotiBotInit (env : Env) : InitResult :=
  match pyInt env.START_HOUR with
  | Except.error e => InitResult.raised e
  | Except.ok startHour =>
  match pyInt env.END_HOUR with
  | Except.error e => InitResult.raised e
  | Except.ok endHour =>
  match pyStrToBool env.SHUFFLE with
  | Except.error e => InitResult.raised e
  | Except.ok shuffle =>
  match pyStrToBool env.HEADLESS with
  | Except.error e => InitResult.raised e
  | Except.ok headless =>
  if env.PLAYLIST_LINK.isNone || env.LOGIN_USERNAME.isNone || env.LOGIN_PASSWORD.isNone
      || env.SENDER_EMAIL.isNone || env.RECEIVER_EMAIL.isNone || env.APP_PASSWORD.isNone then
    InitResult.exited 1
  else
    InitResult.ok
      { PLAYLIST_LINK := env.PLAYLIST_LINK.getD ""
        LOGIN_USERNAME := env.LOGIN_USERNAME.getD ""
        LOGIN_PASSWORD := env.LOGIN_PASSWORD.getD ""
        START_HOUR := startHour
        END_HOUR := endHour
        SHUFFLE := shuffle
        HEADLESS := headless
        SENDER_EMAIL := env.SENDER_EMAIL
        RECEIVER_EMAIL := env.RECEIVER_EMAIL
        APP_PASSWORD := env.APP_PASSWORD }

/-- Observable outcome of the whole process as driven by the __main__
block: whether the notification email was sent, whether the finally
block managed to quit the driver, whether the interpreter exited with
status zero, and which exception (if any) escaped uncaught and killed
the process. -/
structure MainResult where
  notificationSent : Bool
  teardownRan : Bool
  exitedZero : Bool
  uncaught : Option PyError
deriving DecidableEq

/-- The __main__ block (src/main.py lines 297 to 313).  `bot` starts as
None.  If the constructor raises or exits, `bot` is still None, so both
except handlers and the finally block dereference None and raise
AttributeError themselves: the process dies from that AttributeError
with no notification, no teardown and a non-zero status.  If the
constructor succeeded and run raised: SystemExit is caught by neither
handler (it is not an Exception), so the finally block tears down and
the process exits with the SystemExit status 1; KeyboardInterrupt is
logged as a warning and the process falls off the end with status 0;
any other Exception is logged, the notification is sent when all three
email fields are non-None, and the process then exits with status 0
because the handler neither re-raises nor calls sys.exit. -/
def topLevelHandle (initRes : InitResult) (runExc : PyError) (runDriverActive : Bool) : MainResult :=
  match initRes with
  | InitResult.raised _ =>
      { notificationSent := false
        teardownRan := false
        exitedZero := false
        uncaught := some PyError.attributeError }
  | InitResult.exited _ =>
      { notificationSent := false
        teardownRan := false
        exitedZero := false
        uncaught := some PyError.attributeError }
  | InitResult.ok cfg =>
      match runExc with
      | PyError.systemExit =>
          { notificationSent := false
            teardownRan := runDriverActive
            exitedZero := false
            uncaught := some PyError.systemExit }
      | PyError.keyboardInterrupt =>
          { notificationSent := false
            teardownRan := runDriverActive
            exitedZero := true
            uncaught := none }
      | _ =>
          { notificationSent := cfg.SENDER_EMAIL.isSome && cfg.RECEIVER_EMAIL.isSome && cfg.APP_PASSWORD.isSome
            teardownRan := runDriverActive
            exitedZero := true
            uncaught := none }

/-- Events emitted while establishing a session (initialize_webdriver
and setup_spotify_player with its helpers).  None of these touch the
three playback controls; clicks made here hit the consent and login
buttons only. -/
inductive SetupEv
  | launchBrowser
  | navigate (url : String)
  | refresh
  | addCookies
  | saveCookies
  | sleepSec (n : Nat)
  | clickAcceptCookies
  | selectEnglish
  | clickLoginButton
  | sendKeys
  | logInfo
  | logError
deriving DecidableEq

/-- Events emitted by one tick of SpotiBot.run.  Session establishment
events are wrapped by the `setup` constructor; the three mutating
playback commands (the playlist play/pause button, the shuffle toggle,
the skip button) have their own constructors. -/
inductive Ev
  | setup (e : SetupEv)
  | clickPlaylistPlayPause
  | clickShuffle
  | clickSkip
  | sleepSec (n : Nat)
  | quitDriver
  | logInfo
deriving DecidableEq

/-- SpotiBot.wait_for_element (src/main.py lines 158 to 164): the
element either becomes clickable within the timeout, or a
TimeoutException is caught, the failure is logged with context, and
sys.exit(1) raises SystemExit. -/
def wait_for_element (found : Bool) : List SetupEv × Except PyError Unit :=
  if found then ([], Except.ok ())
  else ([SetupEv.logError], Except.error PyError.systemExit)

/-- SpotiBot.accept_cookies: a required wait for the consent button,
then a script click. -/
def accept_cookies (btnFound : Bool) : List SetupEv × Except PyError Unit :=
  match wait_for_element btnFound with
  | (tr, Except.error e) => (tr, Except.error e)
  | (tr, Except.ok _) => (tr ++ [SetupEv.clickAcceptCookies, SetupEv.logInfo], Except.ok ())

/-- SpotiBot.set_language_to_english: a required wait for the language
select, choose en-GB, log, refresh. -/
def set_language_to_english (selectFound : Bool) : List SetupEv × Except PyError Unit :=
  match wait_for_element selectFound with
  | (tr, Except.error e) => (tr, Except.error e)
  | (tr, Except.ok _) => (tr ++ [SetupEv.selectEnglish, SetupEv.logInfo, SetupEv.refresh], Except.ok ())

/-- The four required waits of SpotiBot.login, in source order: login
button, username field, password field, login button again.  Each
timeout is fatal inside wait_for_element. -/
structure LoginObs where
  loginBtn1Found : Bool
  usernameFound : Bool
  passwordFound : Bool
  loginBtn2Found : Bool
deriving DecidableEq

/-- SpotiBot.login (src/main.py lines 173 to 185). -/
def login (l : LoginObs) : List SetupEv × Except PyError Unit :=
  match wait_for_element l.loginBtn1Found with
  | (tr, Except.error e) => (tr, Except.error e)
  | (tr1, Except.ok _) =>
  match wait_for_element l.usernameFound with
  | (tr, Except.error e) => (tr1 ++ [SetupEv.clickLoginButton] ++ tr, Except.error e)
  | (tr2, Except.ok _) =>
  match wait_for_element l.passwordFound with
  | (tr, Except.error e) => (tr1 ++ [SetupEv.clickLoginButton] ++ tr2 ++ [SetupEv.sendKeys] ++ tr, Except.error e)
  | (tr3, Except.ok _) =>
  match wait_for_element l.loginBtn2Found with
  | (tr, Except.error e) =>
      (tr1 ++ [SetupEv.clickLoginButton] ++ tr2 ++ [SetupEv.sendKeys] ++ tr3 ++ [SetupEv.sendKeys] ++ tr,
       Except.error e)
  | (tr4, Except.ok _) =>
      (tr1 ++ [SetupEv.clickLoginButton] ++ tr2 ++ [SetupEv.sendKeys] ++ tr3 ++ [SetupEv.sendKeys]
           ++ tr4 ++ [SetupEv.clickLoginButton, SetupEv.logInfo],
       Except.ok ())

/-- The consent-banner condition (src/main.py line 248):
`len(driver.find_elements(...)) != 0` over the find_elements result.
find_elements never raises; an absent banner gives the empty list. -/
def consentBannerProbe (els : List Unit) : Bool :=
  els.length != 0

/-- The login-form condition (src/main.py line 254): same shape as the
consent-banner condition. -/
def loginFormProbe (els : List Unit) : Bool :=
  els.length != 0

/-- The language condition (src/main.py line 251):
`driver.find_elements(...)[0].get_attribute("value") != "en-GB"`.  The
index [0] is not guarded, so an empty find_elements result raises
IndexError; otherwise the first element is read (modelled by its value
attribute) and compared. -/
def languageProbe (els : List String) : Except PyError Bool :=
  match els with
  | [] => Except.error PyError.indexError
  | v :: _ => Except.ok (v != "en-GB")

/-- SpotiBot.is_playing_on_another_device (src/main.py lines 222 to
227): wait up to 5s for the "Playing on" element to be clickable; the
input is `some ()` when it appeared and `none` when the wait timed out.
The TimeoutException is caught and becomes False; nothing escapes. -/
def is_playing_on_another_device (foundWithin5s : Option Unit) : Bool :=
  foundWithin5s.isSome

/-- What the process can find at cookies.pkl: no file, a file the open
call cannot read, a file pickle cannot deserialize, or a valid pickle of
a cookie list. -/
inductive FileState
  | absent
  | unreadable
  | corrupt
  | valid (cookies : List String)
deriving DecidableEq

/-- The stored-cookie loading step of setup_spotify_player (src/main.py
lines 240 to 245).  Only the absent case is guarded (os.path.exists);
open and pickle.load run bare, so an unreadable file raises OSError and
an undeserializable one raises UnpicklingError, and both escape. -/
def loadCookiesStep (f : FileState) : List SetupEv × Except PyError Unit :=
  match f with
  | FileState.absent => ([], Except.ok ())
  | FileState.unreadable => ([], Except.error PyError.oSError)
  | FileState.corrupt => ([], Except.error PyError.unpicklingError)
  | FileState.valid _ => ([SetupEv.addCookies, SetupEv.refresh], Except.ok ())

/-- Everything the browser session presents during one run of
setup_spotify_player: the cookie file state, the three find_elements
results driving the remedial probes, the waits inside the remedial
actions, and the three required control waits at the end. -/
structure SetupObs where
  fileState : FileState
  cookieBannerEls : List Unit
  languageEls : List String
  loginEls : List Unit
  acceptBtnFound : Bool
  languageCtrlFound : Bool
  loginWaits : LoginObs
  playlistBtnFound : Bool
  playPauseBtnFound : Bool
  skipBtnFound : Bool

/-- SpotiBot.setup_spotify_player (src/main.py lines 237 to 268):
navigate to the preferences page, restore stored cookies when the file
exists, settle, run the three remedial probes in order (consent banner,
language, login form) performing the remedial action for each that
fires, persist fresh cookies when any fired, then open the playlist and
discover the three required playback controls. -/
def setup_spotify_player (cfg : Config) (s : SetupObs) : List SetupEv × Except PyError Unit :=
  let tr := [SetupEv.navigate "https://open.spotify.com/preferences"]
  match loadCookiesStep s.fileState with
  | (trL, Except.error e) => (tr ++ trL, Except.error e)
  | (trL, Except.ok _) =>
  let tr := tr ++ trL ++ [SetupEv.sleepSec 10]
  let bannerFired := consentBannerProbe s.cookieBannerEls
  match (if bannerFired then accept_cookies s.acceptBtnFound else ([], Except.ok ())) with
  | (trB, Except.error e) => (tr ++ trB, Except.error e)
  | (trB, Except.ok _) =>
  let tr := tr ++ trB
  match languageProbe s.languageEls with
  | Except.error e => (tr, Except.error e)
  | Except.ok langFired =>
  match (if langFired then set_language_to_english s.languageCtrlFound else ([], Except.ok ())) with
  | (trN, Except.error e) => (tr ++ trN, Except.error e)
  | (trN, Except.ok _) =>
  let tr := tr ++ trN
  let loginFired := loginFormProbe s.loginEls
  match (if loginFired then login s.loginWaits else ([], Except.ok ())) with
  | (trG, Except.error e) => (tr ++ trG, Except.error e)
  | (trG, Except.ok _) =>
  let tr := tr ++ trG
  let tr := tr ++ (if bannerFired || langFired || loginFired then
                     [SetupEv.sleepSec 10, SetupEv.saveCookies, SetupEv.logInfo]
                   else [SetupEv.logInfo])
  let tr := tr ++ [SetupEv.sleepSec 10, SetupEv.navigate cfg.PLAYLIST_LINK, SetupEv.sleepSec 10]
  match wait_for_element s.playlistBtnFound with
  | (trW, Except.error e) => (tr ++ trW, Except.error e)
  | (trW1, Except.ok _) =>
  match wait_for_element s.playPauseBtnFound with
  | (trW, Except.error e) => (tr ++ trW1 ++ trW, Except.error e)
  | (trW2, Except.ok _) =>
  match wait_for_element s.skipBtnFound with
  | (trW, Except.error e) => (tr ++ trW1 ++ trW2 ++ trW, Except.error e)
  | (trW3, Except.ok _) => (tr ++ trW1 ++ trW2 ++ trW3, Except.ok ())

/-- SpotiBot.toggle_shuffle (src/main.py lines 196 to 204): a required
wait for the shuffle control, read its aria-checked attribute, click
only when the configured preference differs from the parsed state.  The
ten-second confirmation wait after the click swallows its
TimeoutException with `pass`, so a confirmation timeout changes nothing
observable and is never fatal. -/
def toggle_shuffle (shufflePref : Bool) (btnFound : Bool) (ariaChecked : String) : List Ev × Except PyError Unit :=
  match wait_for_element btnFound with
  | (tr, Except.error e) => (tr.map Ev.setup, Except.error e)
  | (tr, Except.ok _) =>
      (tr.map Ev.setup ++ (if shufflePref != string_to_bool ariaChecked then [Ev.clickShuffle] else []),
       Except.ok ())

/-- SpotiBot.toggle_play_pause (src/main.py lines 211 to 215) with an
explicit fuel bound standing in for the missing iteration bound of the
source loop.  `obs n` is the n-th is_music_playing read of this call:
iteration k reads the guard at index 2*k, clicks on mismatch, re-reads
at index 2*k+1 and sleeps 3 seconds unless that re-read already
matches.  The result pairs the event trace with `some clicks` when the
guard matched after that many clicks, and `none` when the fuel ran out
with the guard never matching. -/
def toggle_play_pause (play : Bool) (obs : Nat → Bool) : Nat → Nat → List Ev × Option Nat
  | 0, _ => ([], none)
  | Nat.succ fuel, k =>
    if obs (2 * k) == play then ([], some k)
    else
      let rest := toggle_play_pause play obs fuel (k + 1)
      (Ev.clickPlaylistPlayPause :: ((if obs (2 * k + 1) == play then [] else [Ev.sleepSec 3]) ++ rest.1),
       rest.2)

/-- The schedule evaluation of SpotiBot.run (src/main.py line 277):
`START_HOUR <= datetime.now().hour <= END_HOUR`, inclusive on both
bounds. -/
def desired (nowHour startHour endHour : Int) : Bool :=
  decide (startHour ≤ nowHour) && decide (nowHour ≤ endHour)

/-- Everything one tick of the loop observes from the outside world:
the session-setup observations (used only when the driver was not
alive), whether the another-device badge appeared within 5 seconds, the
successive is_music_playing reads, and the shuffle control state. -/
structure TickObs where
  setup : SetupObs
  anotherDeviceBadge : Option Unit
  playing : Nat → Bool
  shuffleBtnFound : Bool
  shuffleAria : String

/-- Outcome of one tick: normal completion with its event trace and the
driver liveness afterwards, an exception escaping the tick to the
top-level handler, or the play/pause convergence loop still running
when the fuel ran out (the source loop has no bound, so this models a
tick that never finishes). -/
inductive TickResult
  | ok (tr : List Ev) (driverActiveAfter : Bool)
  | aborted (tr : List Ev) (e : PyError)
  | hung (tr : List Ev)
deriving DecidableEq

/-- The events a tick emitted, in every outcome. -/
def TickResult.trace : TickResult → List Ev
  | TickResult.ok tr _ => tr
  | TickResult.aborted tr _ => tr
  | TickResult.hung tr => tr

/-- One iteration of the while-loop body of SpotiBot.run (src/main.py
lines 276 to 294).  Inside the active window: (re)establish the session
when the driver is not alive (webdriver construction is modelled as
succeeding; its two-tier fallback does not touch playback), then, only
when no other device is playing and music is not already playing, drive
to playing, reconcile shuffle, and skip once when shuffle is on.
Outside the window: quit the driver when it is alive, issuing no
playback command at all.  The final sleep re-checks driver liveness: 60
seconds when alive, 300 when not. -/
def tick (cfg : Config) (nowHour : Int) (driverActive : Bool) (o : TickObs) (fuel : Nat) : TickResult :=
  if desired nowHour cfg.START_HOUR cfg.END_HOUR then
    match (if driverActive then ([], Except.ok ())
           else
             let p := setup_spotify_player cfg o.setup
             (SetupEv.launchBrowser :: p.1, p.2)) with
    | (trS, Except.error e) => TickResult.aborted (trS.map Ev.setup) e
    | (trS, Except.ok _) =>
      let tr0 := trS.map Ev.setup
      if !(is_playing_on_another_device o.anotherDeviceBadge) && !(o.playing 0) then
        let t := toggle_play_pause true (fun n => o.playing (n + 1)) fuel 0
        match t.2 with
        | none => TickResult.hung (tr0 ++ t.1)
        | some _ =>
          match toggle_shuffle cfg.SHUFFLE o.shuffleBtnFound o.shuffleAria with
          | (trH, Except.error e) => TickResult.aborted (tr0 ++ t.1 ++ trH) e
          | (trH, Except.ok _) =>
            TickResult.ok
              (tr0 ++ t.1 ++ trH ++ (if cfg.SHUFFLE then [Ev.clickSkip] else [])
                   ++ [Ev.logInfo, Ev.sleepSec 60])
              true
      else
        TickResult.ok (tr0 ++ [Ev.sleepSec 60]) true
  else
    if driverActive then
      TickResult.ok [Ev.quitDriver, Ev.logInfo, Ev.sleepSec 300] false
    else
      TickResult.ok [Ev.sleepSec 300] false

/-- The three mutating playback commands of the spec: play/pause,
shuffle, skip. -/
def isMutatingClick : Ev → Bool
  | Ev.clickPlaylistPlayPause => true
  | Ev.clickShuffle => true
  | Ev.clickSkip => true
  | _ => false

/-- The mutating playback commands contained in a trace. -/
def mutatingClicks (tr : List Ev) : List Ev :=
  tr.filter isMutatingClick

/-- Session-setup events are never mutating playback clicks. -/
theorem mutatingClicks_map_setup (l : List SetupEv) :
    mutatingClicks (l.map Ev.setup) = [] := by
  induction l with
  | nil => rfl
  | cons a l ih =>
      simp only [List.map_cons, mutatingClicks, List.filter, isMutatingClick]
      exact ih

/-- mutatingClicks distributes over trace concatenation. -/
theorem mutatingClicks_append (a b : List Ev) :
    mutatingClicks (a ++ b) = mutatingClicks a ++ mutatingClicks b :=
  List.filter_append a b

/-- A fully healthy browser session as observed during setup: no stored
cookies, no consent banner, language already English, no login form,
every required control discoverable. -/
def sampleSetup : SetupObs :=
  { fileState := FileState.absent
    cookieBannerEls := []
    languageEls := ["en-GB"]
    loginEls := []
    acceptBtnFound := true
    languageCtrlFound := true
    loginWaits := { loginBtn1Found := true, usernameFound := true, passwordFound := true, loginBtn2Found := true }
    playlistBtnFound := true
    playPauseBtnFound := true
    skipBtnFound := true }

/-- A fully populated configuration with an 8 to 22 active window. -/
def sampleConfig : Config :=
  { PLAYLIST_LINK := "https://open.spotify.com/playlist/x"
    LOGIN_USERNAME := "user"
    LOGIN_PASSWORD := "pw"
    START_HOUR := 8
    END_HOUR := 22
    SHUFFLE := true
    HEADLESS := true
    SENDER_EMAIL := some "sender"
    RECEIVER_EMAIL := some "receiver"
    APP_PASSWORD := some "apppw" }

/-- Claim C9: the schedule evaluation is the pure inclusive-bounds
comparison: desired(h, s, e) is true exactly when s ≤ h ≤ e, and for a
well-formed window both boundary hours are inside it. -/
theorem c9_schedule (h s e : Int) :
    (desired h s e = true ↔ (s ≤ h ∧ h ≤ e))
      ∧ (s ≤ e → desired s s e = true)
      ∧ (s ≤ e → desired e s e = true) := by
  refine ⟨?_, ?_, ?_⟩
  · simp [desired]
  · intro hse; simp [desired, hse]
  · intro hse; simp [desired, hse]

/-- The boundary hours of the 8 to 22 window are active and hour 10 is
active; instantiates c9_schedule. -/
theorem c9_schedule_witness :
    desired 8 8 22 = true ∧ desired 22 8 22 = true ∧ desired 10 8 22 = true :=
  ⟨(c9_schedule 0 8 22).2.1 (by decide),
   (c9_schedule 0 8 22).2.2 (by decide),
   (c9_schedule 10 8 22).1.mpr (by constructor <;> decide)⟩

/-- If no guard read ever matches the requested state, the loop runs
out of any amount of fuel without returning. -/
theorem tpp_none_of_never (play : Bool) (obs : Nat → Bool)
    (h : ∀ k, obs (2 * k) ≠ play) :
    ∀ fuel k0, (toggle_play_pause play obs fuel k0).2 = none := by
  intro fuel
  induction fuel with
  | zero => intro k0; rfl
  | succ n ih =>
      intro k0
      unfold toggle_play_pause
      simp only [beq_iff_eq, h k0, if_false]
      exact ih (k0 + 1)

/-- When the loop returns after k clicks, the guard read at index 2*k
observed exactly the requested state. -/
theorem tpp_some_matches (play : Bool) (obs : Nat → Bool) :
    ∀ fuel k0 k, (toggle_play_pause play obs fuel k0).2 = some k → obs (2 * k) = play := by
  intro fuel
  induction fuel with
  | zero => intro k0 k h; simp [toggle_play_pause] at h
  | succ n ih =>
      intro k0 k h
      unfold toggle_play_pause at h
      by_cases hc : obs (2 * k0) = play
      · simp only [beq_iff_eq, hc, if_true] at h
        simp only [Option.some.injEq] at h
        rw [← h]
        exact hc
      · simp only [beq_iff_eq, hc, if_false] at h
        exact ih (k0 + 1) k h

/-- If some guard read within reach of the fuel matches, the loop
returns. -/
theorem tpp_terminates (play : Bool) (obs : Nat → Bool) :
    ∀ fuel k0, (∃ k, k0 ≤ k ∧ k < k0 + fuel ∧ obs (2 * k) = play) →
      ((toggle_play_pause play obs fuel k0).2).isSome = true := by
  intro fuel
  induction fuel with
  | zero =>
      intro k0 h
      obtain ⟨k, h1, h2, _⟩ := h
      omega
  | succ n ih =>
      intro k0 h
      obtain ⟨k, h1, h2, h3⟩ := h
      unfold toggle_play_pause
      by_cases hc : obs (2 * k0) = play
      · simp [beq_iff_eq, hc]
      · simp only [beq_iff_eq, hc, if_false]
        apply ih (k0 + 1)
        refine ⟨k, ?_, by omega, h3⟩
        rcases Nat.eq_or_lt_of_le h1 with he | hl
        · exact absurd (by rw [he]; exact h3) hc
        · exact hl

/-- Claim C8: toggle_play_pause(play) is an unbounded convergence loop:
with an observation sequence whose guard reads never match the request,
no amount of fuel makes it return (the source loop never terminates);
when it does return after k clicks, the guard read observed exactly the
requested state; and when some guard read matches, enough fuel makes it
return.  The per-iteration click and the 3-second settle sleep between
attempts are part of the definition of toggle_play_pause. -/
theorem c8_convergence (play : Bool) (obs : Nat → Bool) :
    ((∀ k, obs (2 * k) ≠ play) → ∀ fuel, (toggle_play_pause play obs fuel 0).2 = none)
      ∧ (∀ fuel k, (toggle_play_pause play obs fuel 0).2 = some k → obs (2 * k) = play)
      ∧ (∀ k, obs (2 * k) = play → ((toggle_play_pause play obs (k + 1) 0).2).isSome = true) :=
  ⟨fun h fuel => tpp_none_of_never play obs h fuel 0,
   fun fuel k h => tpp_some_matches play obs fuel 0 k h,
   fun k h => tpp_terminates play obs (k + 1) 0 ⟨k, Nat.zero_le k, by omega, h⟩⟩

/-- Instantiation of c8_convergence: an always-paused observation keeps
the drive-to-playing loop from returning through 9 units of fuel, and an
immediately-playing observation makes it return at once. -/
theorem c8_convergence_witness :
    (toggle_play_pause true (fun _ => false) 9 0).2 = none
      ∧ ((toggle_play_pause true (fun _ => true) 1 0).2).isSome = true :=
  ⟨(c8_convergence true (fun _ => false)).1 (fun k => by decide) 9,
   (c8_convergence true (fun _ => true)).2.2 0 (by decide)⟩

/-- Observations for a tick where music is already playing locally and
no other device holds playback. -/
def obsPlayingLocal : TickObs :=
  { setup := sampleSetup
    anotherDeviceBadge := none
    playing := fun _ => true
    shuffleBtnFound := true
    shuffleAria := "true" }

/-- Observations for a tick where another device holds playback. -/
def obsRemoteActive : TickObs :=
  { obsPlayingLocal with anotherDeviceBadge := some () }

/-- Claim C6: whenever the another-device probe observes true, the tick
issues no play/pause, shuffle or skip click, in the active window and
outside it alike. -/
theorem c6_remote_suppression (cfg : Config) (nowHour : Int) (driverActive : Bool) (o : TickObs)
    (fuel : Nat) (h : is_playing_on_another_device o.anotherDeviceBadge = true) :
    mutatingClicks ((tick cfg nowHour driverActive o fuel).trace) = [] := by
  unfold tick
  by_cases hd : desired nowHour cfg.START_HOUR cfg.END_HOUR = true
  · rw [if_pos hd]
    split
    · simp [TickResult.trace, mutatingClicks_map_setup]
    · simp [h, TickResult.trace, mutatingClicks_append, mutatingClicks_map_setup,
            mutatingClicks, isMutatingClick, List.filter]
  · rw [if_neg hd]
    by_cases hdr : driverActive <;>
      simp [hdr, TickResult.trace, mutatingClicks, isMutatingClick, List.filter]

/-- Instantiation of c6_remote_suppression at a concrete tick with the
another-device badge present. -/
theorem c6_remote_suppression_witness :
    mutatingClicks ((tick sampleConfig 10 true obsRemoteActive 2).trace) = [] :=
  c6_remote_suppression sampleConfig 10 true obsRemoteActive 2 rfl

/-- Claim C7: when the desired play state already equals the observed
play state and the configured shuffle preference already equals the
observed shuffle state, the tick issues no mutating click. -/
theorem c7_idempotence (cfg : Config) (nowHour : Int) (driverActive : Bool) (o : TickObs)
    (fuel : Nat)
    (hp : desired nowHour cfg.START_HOUR cfg.END_HOUR = o.playing 0)
    (_hs : cfg.SHUFFLE = string_to_bool o.shuffleAria) :
    mutatingClicks ((tick cfg nowHour driverActive o fuel).trace) = [] := by
  unfold tick
  by_cases hd : desired nowHour cfg.START_HOUR cfg.END_HOUR = true
  · have hp0 : o.playing 0 = true := by rw [← hp]; exact hd
    rw [if_pos hd]
    split
    · simp [TickResult.trace, mutatingClicks_map_setup]
    · simp [hp0, TickResult.trace, mutatingClicks_append, mutatingClicks_map_setup,
            mutatingClicks, isMutatingClick, List.filter]
  · rw [if_neg hd]
    by_cases hdr : driverActive <;>
      simp [hdr, TickResult.trace, mutatingClicks, isMutatingClick, List.filter]

/-- Instantiation of c7_idempotence at a concrete tick inside the
window with music already playing and shuffle already on. -/
theorem c7_idempotence_witness :
    mutatingClicks ((tick sampleConfig 10 true obsPlayingLocal 2).trace) = [] :=
  c7_idempotence sampleConfig 10 true obsPlayingLocal 2 (by decide) (by decide)

/-- Claim C1 as stated is false: at hour 23 with the 8 to 22 window,
driver alive, no other device and music observed playing, the tick
issues no play/pause command at all — it tears the session down without
first driving playback to paused. -/
theorem c1_counterexample :
    desired 23 sampleConfig.START_HOUR sampleConfig.END_HOUR = false
      ∧ is_playing_on_another_device obsPlayingLocal.anotherDeviceBadge = false
      ∧ obsPlayingLocal.playing 0 = true
      ∧ Ev.clickPlaylistPlayPause ∉ (tick sampleConfig 23 true obsPlayingLocal 5).trace
      ∧ Ev.quitDriver ∈ (tick sampleConfig 23 true obsPlayingLocal 5).trace := by
  decide

/-- Claim C1 amended: outside the active window with the driver alive,
the tick quits the driver directly — regardless of what is playing or
which device holds playback — emitting no playback command and no track
skip, and then sleeps 300 seconds. -/
theorem c1_inactive_teardown (cfg : Config) (nowHour : Int) (o : TickObs) (fuel : Nat)
    (h : desired nowHour cfg.START_HOUR cfg.END_HOUR = false) :
    tick cfg nowHour true o fuel
      = TickResult.ok [Ev.quitDriver, Ev.logInfo, Ev.sleepSec 300] false := by
  unfold tick
  rw [h]
  simp

/-- Instantiation of c1_inactive_teardown at hour 23 with the 8 to 22
window. -/
theorem c1_inactive_teardown_witness :
    tick sampleConfig 23 true obsPlayingLocal 1
      = TickResult.ok [Ev.quitDriver, Ev.logInfo, Ev.sleepSec 300] false :=
  c1_inactive_teardown sampleConfig 23 obsPlayingLocal 1 (by decide)

/-- An error escaping pyInt is a TypeError or a ValueError; both are
Exception subclasses. -/
theorem pyInt_error_isExc {x : Option String} {e : PyError} (h : pyInt x = Except.error e) :
    isPyException e = true := by
  unfold pyInt at h
  split at h
  · injection h with h
    subst h
    rfl
  · split at h
    · cases h
    · injection h with h
      subst h
      rfl

/-- An error escaping pyStrToBool is an AttributeError, an Exception
subclass. -/
theorem pyStrToBool_error_isExc {x : Option String} {e : PyError}
    (h : pyStrToBool x = Except.error e) : isPyException e = true := by
  unfold pyStrToBool at h
  split at h
  · injection h with h
    subst h
    rfl
  · cases h

/-- pyInt only succeeds on a set variable. -/
theorem pyInt_ok_ne_none {x : Option String} {n : Int} (h : pyInt x = Except.ok n) : x ≠ none := by
  intro hx
  rw [hx] at h
  simp [pyInt] at h

/-- pyStrToBool only succeeds on a set variable. -/
theorem pyStrToBool_ok_ne_none {x : Option String} {b : Bool} (h : pyStrToBool x = Except.ok b) :
    x ≠ none := by
  intro hx
  rw [hx] at h
  simp [pyStrToBool] at h

/-- Claim C2 as stated is false: with every required field present and
only the three notification fields absent, startup does not succeed —
the validation check lists the notification fields among the required
set and exits with status 1. -/
theorem c2_counterexample :
    spotiBotInit
        { PLAYLIST_LINK := some "https://open.spotify.com/playlist/x"
          LOGIN_USERNAME := some "user"
          LOGIN_PASSWORD := some "pw"
          START_HOUR := some "8"
          END_HOUR := some "22"
          SHUFFLE := some "true"
          HEADLESS := some "yes"
          SENDER_EMAIL := none
          RECEIVER_EMAIL := none
          APP_PASSWORD := none }
      = InitResult.exited 1 := by
  decide

/-- Claim C2 amended: the notification fields are required, not
optional.  Whenever the hour and flag variables parse, startup reaches
the validation check and exits with status 1 exactly when one of the
six string fields — playlist link, username, password, sender email,
receiver email, app password — is unset, and no exception escapes the
constructor; a missing hour or flag variable instead raises before the
validation check ever runs (claim C10). -/
theorem c2_notification_required (env : Env)
    (h1 : ∃ n, pyInt env.START_HOUR = Except.ok n)
    (h2 : ∃ n, pyInt env.END_HOUR = Except.ok n)
    (h3 : ∃ b, pyStrToBool env.SHUFFLE = Except.ok b)
    (h4 : ∃ b, pyStrToBool env.HEADLESS = Except.ok b) :
    (spotiBotInit env = InitResult.exited 1
      ↔ (env.PLAYLIST_LINK = none ∨ env.LOGIN_USERNAME = none ∨ env.LOGIN_PASSWORD = none
          ∨ env.SENDER_EMAIL = none ∨ env.RECEIVER_EMAIL = none ∨ env.APP_PASSWORD = none))
      ∧ ∀ e, spotiBotInit env ≠ InitResult.raised e := by
  obtain ⟨n1, e1⟩ := h1
  obtain ⟨n2, e2⟩ := h2
  obtain ⟨b3, e3⟩ := h3
  obtain ⟨b4, e4⟩ := h4
  unfold spotiBotInit
  rw [e1, e2, e3, e4]
  dsimp only
  have hiff : (env.PLAYLIST_LINK.isNone || env.LOGIN_USERNAME.isNone || env.LOGIN_PASSWORD.isNone
        || env.SENDER_EMAIL.isNone || env.RECEIVER_EMAIL.isNone || env.APP_PASSWORD.isNone) = true
      ↔ (env.PLAYLIST_LINK = none ∨ env.LOGIN_USERNAME = none ∨ env.LOGIN_PASSWORD = none
          ∨ env.SENDER_EMAIL = none ∨ env.RECEIVER_EMAIL = none ∨ env.APP_PASSWORD = none) := by
    simp [Option.isNone_iff_eq_none, or_assoc]
  constructor
  · rw [← hiff]
    by_cases hc : (env.PLAYLIST_LINK.isNone || env.LOGIN_USERNAME.isNone || env.LOGIN_PASSWORD.isNone
        || env.SENDER_EMAIL.isNone || env.RECEIVER_EMAIL.isNone || env.APP_PASSWORD.isNone) = true
    · rw [if_pos hc]
      exact iff_of_true rfl hc
    · rw [if_neg hc]
      refine iff_of_false ?_ hc
      intro hx
      cases hx
  · intro e
    split <;> intro hx <;> cases hx

/-- The environment with only RECEIVER_EMAIL unset, for instantiating
c2_notification_required. -/
def envNoReceiver : Env :=
  { PLAYLIST_LINK := some "https://open.spotify.com/playlist/x"
    LOGIN_USERNAME := some "user"
    LOGIN_PASSWORD := some "pw"
    START_HOUR := some "8"
    END_HOUR := some "22"
    SHUFFLE := some "true"
    HEADLESS := some "yes"
    SENDER_EMAIL := some "sender"
    RECEIVER_EMAIL := none
    APP_PASSWORD := some "apppw" }

/-- Instantiation of c2_notification_required: a missing receiver email
alone makes startup exit with status 1. -/
theorem c2_notification_required_witness :
    spotiBotInit envNoReceiver = InitResult.exited 1 :=
  (c2_notification_required envNoReceiver ⟨8, rfl⟩ ⟨22, rfl⟩ ⟨true, rfl⟩ ⟨true, rfl⟩).1.mpr
    (Or.inr (Or.inr (Or.inr (Or.inr (Or.inl rfl)))))

/-- Claim C10: when any of START_HOUR, END_HOUR, SHUFFLE or HEADLESS is
unset, the constructor raises an Exception (int or lower applied to
None) before the missing-variable validation and its log message can
run, so init never reaches the exited-1 path; and because `bot` is still
None, the top-level handler dereferences None and dies of its own
AttributeError — non-zero exit, no notification, no teardown. -/
theorem c10_early_config_crash (env : Env)
    (h : env.START_HOUR = none ∨ env.END_HOUR = none ∨ env.SHUFFLE = none ∨ env.HEADLESS = none) :
    ∃ e, spotiBotInit env = InitResult.raised e ∧ isPyException e = true
      ∧ ∀ rexc ract, topLevelHandle (spotiBotInit env) rexc ract
          = { notificationSent := false, teardownRan := false, exitedZero := false,
              uncaught := some PyError.attributeError } := by
  have hre : ∃ e, spotiBotInit env = InitResult.raised e ∧ isPyException e = true := by
    unfold spotiBotInit
    cases hS : pyInt env.START_HOUR with
    | error e => exact ⟨e, rfl, pyInt_error_isExc hS⟩
    | ok n1 =>
      cases hE : pyInt env.END_HOUR with
      | error e => exact ⟨e, rfl, pyInt_error_isExc hE⟩
      | ok n2 =>
        cases hSh : pyStrToBool env.SHUFFLE with
        | error e => exact ⟨e, rfl, pyStrToBool_error_isExc hSh⟩
        | ok b1 =>
          cases hH : pyStrToBool env.HEADLESS with
          | error e => exact ⟨e, rfl, pyStrToBool_error_isExc hH⟩
          | ok b2 =>
            rcases h with h | h | h | h
            · exact absurd h (pyInt_ok_ne_none hS)
            · exact absurd h (pyInt_ok_ne_none hE)
            · exact absurd h (pyStrToBool_ok_ne_none hSh)
            · exact absurd h (pyStrToBool_ok_ne_none hH)
  obtain ⟨e, he, hexc⟩ := hre
  refine ⟨e, he, hexc, ?_⟩
  intro rexc ract
  rw [he]
  rfl

/-- The environment with only SHUFFLE unset, for instantiating
c10_early_config_crash. -/
def envNoShuffle : Env :=
  { PLAYLIST_LINK := some "https://open.spotify.com/playlist/x"
    LOGIN_USERNAME := some "user"
    LOGIN_PASSWORD := some "pw"
    START_HOUR := some "8"
    END_HOUR := some "22"
    SHUFFLE := none
    HEADLESS := some "yes"
    SENDER_EMAIL := some "sender"
    RECEIVER_EMAIL := some "receiver"
    APP_PASSWORD := some "apppw" }

/-- Instantiation of c10_early_config_crash: with SHUFFLE unset the
process dies of the handler AttributeError — no notification, no
teardown, non-zero exit. -/
theorem c10_early_config_crash_witness :
    topLevelHandle (spotiBotInit envNoShuffle) PyError.typeError true
      = { notificationSent := false, teardownRan := false, exitedZero := false,
          uncaught := some PyError.attributeError } :=
  (c10_early_config_crash envNoShuffle (Or.inr (Or.inr (Or.inl rfl)))).choose_spec.2.2
    PyError.typeError true

/-- Claim C3 as stated is false: an unreadable cookies.pkl does not
fail soft — the open call raises OSError inside setup_spotify_player
and the flow does not continue to interactive authentication. -/
theorem c3_counterexample :
    (loadCookiesStep FileState.unreadable).2 = Except.error PyError.oSError
      ∧ (setup_spotify_player sampleConfig { sampleSetup with fileState := FileState.unreadable }).2
          = Except.error PyError.oSError :=
  ⟨rfl, rfl⟩

/-- Claim C3 amended: only the absent-file case fails soft (the
os.path.exists guard skips the whole block and the flow degrades to
interactive authentication); a readable valid file also loads without
error; but an unreadable or undeserializable file raises (OSError or
UnpicklingError) and the exception escapes setup_spotify_player to the
top-level handler instead of degrading to interactive login. -/
theorem c3_load_soft_only_absent (cfg : Config) (s : SetupObs) (cookies : List String) :
    ((loadCookiesStep FileState.absent).2 = Except.ok ())
      ∧ ((loadCookiesStep (FileState.valid cookies)).2 = Except.ok ())
      ∧ (s.fileState = FileState.unreadable →
          (setup_spotify_player cfg s).2 = Except.error PyError.oSError)
      ∧ (s.fileState = FileState.corrupt →
          (setup_spotify_player cfg s).2 = Except.error PyError.unpicklingError) := by
  refine ⟨rfl, rfl, ?_, ?_⟩ <;>
    intro hf <;> unfold setup_spotify_player <;> rw [hf] <;> rfl

/-- Instantiation of c3_load_soft_only_absent: a corrupt cookie file
makes setup abort with UnpicklingError. -/
theorem c3_load_soft_only_absent_witness :
    (setup_spotify_player sampleConfig { sampleSetup with fileState := FileState.corrupt }).2
      = Except.error PyError.unpicklingError :=
  (c3_load_soft_only_absent sampleConfig { sampleSetup with fileState := FileState.corrupt } []).2.2.2
    rfl

/-- Claim C4 as stated is false: a timeout on a required control makes
wait_for_element raise SystemExit via sys.exit(1), and SystemExit is not
caught by the except-Exception handler, so no notification email is
sent even though all three notification fields are configured. -/
theorem c4_counterexample :
    sampleConfig.SENDER_EMAIL.isSome = true
      ∧ sampleConfig.RECEIVER_EMAIL.isSome = true
      ∧ sampleConfig.APP_PASSWORD.isSome = true
      ∧ (wait_for_element false).2 = Except.error PyError.systemExit
      ∧ (topLevelHandle (InitResult.ok sampleConfig) PyError.systemExit true).notificationSent
          = false :=
  ⟨rfl, rfl, rfl, rfl, rfl⟩

/-- Claim C4 amended: a timeout on a required control logs the failure
with context and raises SystemExit; the process exits non-zero and the
top-level finally block tears the session down when the driver is
alive, but the notification email is never sent, because SystemExit
bypasses the except-Exception handler.  A tick whose session setup
cannot find the required playlist button aborts with exactly this
SystemExit. -/
theorem c4_timeout_fatal_no_notification (cfg : Config) (ract : Bool) :
    wait_for_element false = ([SetupEv.logError], Except.error PyError.systemExit)
      ∧ topLevelHandle (InitResult.ok cfg) PyError.systemExit ract
          = { notificationSent := false, teardownRan := ract, exitedZero := false,
              uncaught := some PyError.systemExit }
      ∧ ∃ tr, tick sampleConfig 10 false
            { obsPlayingLocal with setup := { sampleSetup with playlistBtnFound := false } } 3
          = TickResult.aborted tr PyError.systemExit := by
  refine ⟨rfl, rfl, ⟨?_, ?_⟩⟩
  · exact (tick sampleConfig 10 false
      { obsPlayingLocal with setup := { sampleSetup with playlistBtnFound := false } } 3).trace
  · decide

/-- Claim C5 as stated is false: the language probe is not
timeout-safe — with the language select element missing, the unguarded
index [0] raises IndexError, which escapes setup_spotify_player. -/
theorem c5_counterexample :
    languageProbe [] = Except.error PyError.indexError
      ∧ (setup_spotify_player sampleConfig { sampleSetup with languageEls := [] }).2
          = Except.error PyError.indexError :=
  ⟨rfl, rfl⟩

/-- Claim C5 amended: the consent-banner, login-form and another-device
probes all resolve to a boolean — false on timeout or empty
find_elements result — and never raise; the language condition is the
exception: it reads the first find_elements entry without a presence
guard, so it resolves to a boolean only when the element list is
nonempty and raises IndexError when the language element is missing. -/
theorem c5_probe_totality (w : Option Unit) (u : List Unit) (v : String) (vs : List String) :
    (is_playing_on_another_device none = false)
      ∧ (is_playing_on_another_device w = w.isSome)
      ∧ (consentBannerProbe [] = false)
      ∧ (consentBannerProbe u = !u.isEmpty)
      ∧ (loginFormProbe [] = false)
      ∧ (loginFormProbe u = !u.isEmpty)
      ∧ (languageProbe (v :: vs) = Except.ok (v != "en-GB"))
      ∧ (languageProbe [] = Except.error PyError.indexError) := by
  refine ⟨rfl, rfl, rfl, ?_, rfl, ?_, rfl, rfl⟩ <;> cases u <;> rfl
